import Mathlib

/-!
Verification of the session-orchestration core of the `relay` repository.

The definitions below are a shallow embedding of the Python sources:

* `app/models/nemsis.py`       — the structured clinical record (`NEMSISRecord`)
* `app/services/nemsis_extractor.py` — `extract_nemsis`, `_merge_records` / `_merge`
* `app/services/core_info_checker.py` — the trigger-gate predicates
* `app/routers/stream.py`      — the per-session orchestration (commit buffering,
  extraction loop, downstream dispatch, teardown)
* `app/services/event_bus.py`  — the in-memory `CaseEventBus`

Python `None` becomes `Option.none`; Python dict trees become either typed
structures (for the fixed NEMSIS schema) or association lists (for the generic
recursive dict merge); `async` I/O effects (database writes, websocket sends,
logging) are outside the state carried here and are noted where they occur.
-/

namespace Relay

/-! ## The NEMSIS record (app/models/nemsis.py)

Numeric `float` fields (`blood_glucose`, `temperature`) are modelled as `ℚ`:
the merge logic only ever distinguishes null from non-null scalar values, so
the carrier of the numeric payload is irrelevant to every property proved here.

The fields `gp_name`, `gp_phone` and `gp_practice_name` are read and written on
`record.patient` by `app/routers/stream.py` and
`app/services/core_info_checker.py`, but the copy of `app/models/nemsis.py` in
the source tree does not declare them.  Modelled from the spec: §4.4 describes a
provider (GP) name and provider phone number carried in the structured record;
they are added here as nullable string fields alongside the declared ones. -/

structure NEMSISPatientInfo where
  patient_name_last : Option String := none
  patient_name_first : Option String := none
  patient_address : Option String := none
  patient_city : Option String := none
  patient_state : Option String := none
  patient_zip : Option String := none
  patient_age : Option String := none
  patient_gender : Option String := none
  patient_race : Option String := none
  patient_phone : Option String := none
  patient_date_of_birth : Option String := none
  gp_name : Option String := none
  gp_phone : Option String := none
  gp_practice_name : Option String := none
  deriving DecidableEq, Repr

structure NEMSISVitals where
  systolic_bp : Option Int := none
  diastolic_bp : Option Int := none
  heart_rate : Option Int := none
  respiratory_rate : Option Int := none
  spo2 : Option Int := none
  blood_glucose : Option ℚ := none
  gcs_total : Option Int := none
  gcs_eye : Option Int := none
  gcs_verbal : Option Int := none
  gcs_motor : Option Int := none
  temperature : Option ℚ := none
  pain_scale : Option Int := none
  level_of_consciousness : Option String := none
  stroke_scale_score : Option Int := none
  stroke_scale_type : Option String := none
  deriving DecidableEq, Repr

structure NEMSISSituation where
  chief_complaint : Option String := none
  primary_impression : Option String := none
  secondary_impression : Option String := none
  injury_cause : Option String := none
  onset_date_time : Option String := none
  possible_injury : Option Bool := none
  complaint_duration : Option String := none
  initial_acuity : Option String := none
  deriving DecidableEq, Repr

structure NEMSISProcedures where
  procedures : List String := []
  deriving DecidableEq, Repr

structure NEMSISMedications where
  medications : List String := []
  deriving DecidableEq, Repr

structure NEMSISTimes where
  unit_notified : Option String := none
  unit_en_route : Option String := none
  unit_arrived_scene : Option String := none
  arrived_at_patient : Option String := none
  transfer_of_care : Option String := none
  unit_left_scene : Option String := none
  arrived_destination : Option String := none
  unit_back_in_service : Option String := none
  deriving DecidableEq, Repr

structure NEMSISDisposition where
  destination_facility : Option String := none
  destination_type : Option String := none
  transport_mode : Option String := none
  transport_disposition : Option String := none
  patient_acuity : Option String := none
  hospital_team_activation : List String := []
  deriving DecidableEq, Repr

structure NEMSISHistory where
  medical_history : List String := []
  current_medications : List String := []
  allergies : List String := []
  last_oral_intake : Option String := none
  alcohol_drug_use : Option String := none
  deriving DecidableEq, Repr

structure NEMSISRecord where
  patient : NEMSISPatientInfo := {}
  vitals : NEMSISVitals := {}
  situation : NEMSISSituation := {}
  procedures : NEMSISProcedures := {}
  medications : NEMSISMedications := {}
  times : NEMSISTimes := {}
  disposition : NEMSISDisposition := {}
  history : NEMSISHistory := {}
  deriving DecidableEq, Repr

/-- The record produced by `NEMSISRecord()` in Python: every scalar null,
every list empty. -/
def emptyNEMSIS : NEMSISRecord := {}

/-! ## The record merge (app/services/nemsis_extractor.py, `_merge_records`)

`_merge_records` dumps both records to nested dicts, runs the recursive
`_merge`, and re-validates.  On the fixed NEMSIS schema the two dumps always
have identical key sets, sub-dicts line up with sub-dicts, list fields with
list fields and scalar fields with scalar fields, so the dict walk specialises
to the typed, field-by-field merge below.  (The fully generic dict walk, used
for the claim about arbitrary dicts, is embedded separately as `mergeDict`.) -/

/-- Scalar branch of `_merge`: `result[key] = updated[key] if updated[key] is
not None else old[key]`. -/
def mergeScalar {α : Type} (old updated : Option α) : Option α :=
  match updated with
  | some v => some v
  | none => old

/-- List branch of `_merge`: start from a copy of the old list, then append
each updated item not already present (`combined = list(old.get(key, []) or
[]); for item in (updated[key] or []): if item not in combined:
combined.append(item)`). -/
def listUnion (old updated : List String) : List String :=
  updated.foldl (fun combined item => if item ∈ combined then combined else combined ++ [item]) old

def mergePatient (o n : NEMSISPatientInfo) : NEMSISPatientInfo where
  patient_name_last := mergeScalar o.patient_name_last n.patient_name_last
  patient_name_first := mergeScalar o.patient_name_first n.patient_name_first
  patient_address := mergeScalar o.patient_address n.patient_address
  patient_city := mergeScalar o.patient_city n.patient_city
  patient_state := mergeScalar o.patient_state n.patient_state
  patient_zip := mergeScalar o.patient_zip n.patient_zip
  patient_age := mergeScalar o.patient_age n.patient_age
  patient_gender := mergeScalar o.patient_gender n.patient_gender
  patient_race := mergeScalar o.patient_race n.patient_race
  patient_phone := mergeScalar o.patient_phone n.patient_phone
  patient_date_of_birth := mergeScalar o.patient_date_of_birth n.patient_date_of_birth
  gp_name := mergeScalar o.gp_name n.gp_name
  gp_phone := mergeScalar o.gp_phone n.gp_phone
  gp_practice_name := mergeScalar o.gp_practice_name n.gp_practice_name

def mergeVitals (o n : NEMSISVitals) : NEMSISVitals where
  systolic_bp := mergeScalar o.systolic_bp n.systolic_bp
  diastolic_bp := mergeScalar o.diastolic_bp n.diastolic_bp
  heart_rate := mergeScalar o.heart_rate n.heart_rate
  respiratory_rate := mergeScalar o.respiratory_rate n.respiratory_rate
  spo2 := mergeScalar o.spo2 n.spo2
  blood_glucose := mergeScalar o.blood_glucose n.blood_glucose
  gcs_total := mergeScalar o.gcs_total n.gcs_total
  gcs_eye := mergeScalar o.gcs_eye n.gcs_eye
  gcs_verbal := mergeScalar o.gcs_verbal n.gcs_verbal
  gcs_motor := mergeScalar o.gcs_motor n.gcs_motor
  temperature := mergeScalar o.temperature n.temperature
  pain_scale := mergeScalar o.pain_scale n.pain_scale
  level_of_consciousness := mergeScalar o.level_of_consciousness n.level_of_consciousness
  stroke_scale_score := mergeScalar o.stroke_scale_score n.stroke_scale_score
  stroke_scale_type := mergeScalar o.stroke_scale_type n.stroke_scale_type

def mergeSituation (o n : NEMSISSituation) : NEMSISSituation where
  chief_complaint := mergeScalar o.chief_complaint n.chief_complaint
  primary_impression := mergeScalar o.primary_impression n.primary_impression
  secondary_impression := mergeScalar o.secondary_impression n.secondary_impression
  injury_cause := mergeScalar o.injury_cause n.injury_cause
  onset_date_time := mergeScalar o.onset_date_time n.onset_date_time
  possible_injury := mergeScalar o.possible_injury n.possible_injury
  complaint_duration := mergeScalar o.complaint_duration n.complaint_duration
  initial_acuity := mergeScalar o.initial_acuity n.initial_acuity

def mergeProcedures (o n : NEMSISProcedures) : NEMSISProcedures where
  procedures := listUnion o.procedures n.procedures

def mergeMedications (o n : NEMSISMedications) : NEMSISMedications where
  medications := listUnion o.medications n.medications

def mergeTimes (o n : NEMSISTimes) : NEMSISTimes where
  unit_notified := mergeScalar o.unit_notified n.unit_notified
  unit_en_route := mergeScalar o.unit_en_route n.unit_en_route
  unit_arrived_scene := mergeScalar o.unit_arrived_scene n.unit_arrived_scene
  arrived_at_patient := mergeScalar o.arrived_at_patient n.arrived_at_patient
  transfer_of_care := mergeScalar o.transfer_of_care n.transfer_of_care
  unit_left_scene := mergeScalar o.unit_left_scene n.unit_left_scene
  arrived_destination := mergeScalar o.arrived_destination n.arrived_destination
  unit_back_in_service := mergeScalar o.unit_back_in_service n.unit_back_in_service

def mergeDisposition (o n : NEMSISDisposition) : NEMSISDisposition where
  destination_facility := mergeScalar o.destination_facility n.destination_facility
  destination_type := mergeScalar o.destination_type n.destination_type
  transport_mode := mergeScalar o.transport_mode n.transport_mode
  transport_disposition := mergeScalar o.transport_disposition n.transport_disposition
  patient_acuity := mergeScalar o.patient_acuity n.patient_acuity
  hospital_team_activation := listUnion o.hospital_team_activation n.hospital_team_activation

def mergeHistory (o n : NEMSISHistory) : NEMSISHistory where
  medical_history := listUnion o.medical_history n.medical_history
  current_medications := listUnion o.current_medications n.current_medications
  allergies := listUnion o.allergies n.allergies
  last_oral_intake := mergeScalar o.last_oral_intake n.last_oral_intake
  alcohol_drug_use := mergeScalar o.alcohol_drug_use n.alcohol_drug_use

/-- `_merge_records(existing, new)` specialised to the NEMSIS schema: both
sides are dicts at the top level and for each of the eight sections, so the
dict walk recurses into each section and merges field by field. -/
def mergeRecords (existing new : NEMSISRecord) : NEMSISRecord where
  patient := mergePatient existing.patient new.patient
  vitals := mergeVitals existing.vitals new.vitals
  situation := mergeSituation existing.situation new.situation
  procedures := mergeProcedures existing.procedures new.procedures
  medications := mergeMedications existing.medications new.medications
  times := mergeTimes existing.times new.times
  disposition := mergeDisposition existing.disposition new.disposition
  history := mergeHistory existing.history new.history

/-! ## Basic facts about the two merge branches -/

theorem mergeScalar_self {α : Type} (a : Option α) : mergeScalar a a = a := by
  cases a <;> rfl

/-- Whatever the new side contributes, a non-null old scalar stays non-null. -/
def optLe {α : Type} (a b : Option α) : Prop := a.isSome → b.isSome

theorem optLe_refl {α : Type} (a : Option α) : optLe a a := fun h => h

theorem optLe_trans {α : Type} {a b c : Option α} (h1 : optLe a b) (h2 : optLe b c) :
    optLe a c := fun h => h2 (h1 h)

theorem mergeScalar_le {α : Type} (a b : Option α) : optLe a (mergeScalar a b) := by
  cases b <;> simp [mergeScalar, optLe]

theorem listUnion_cons (old : List String) (x : String) (xs : List String) :
    listUnion old (x :: xs) = listUnion (if x ∈ old then old else old ++ [x]) xs := rfl

theorem listUnion_subset_left (old updated : List String) : old ⊆ listUnion old updated := by
  induction updated generalizing old with
  | nil => exact fun _ h => h
  | cons x xs ih =>
    rw [listUnion_cons]
    refine List.Subset.trans ?_ (ih _)
    by_cases hx : x ∈ old
    · simp [hx]
    · simp only [hx, if_false]
      exact List.subset_append_left _ _

theorem listUnion_eq_self_of_subset (old updated : List String) (h : ∀ x ∈ updated, x ∈ old) :
    listUnion old updated = old := by
  induction updated with
  | nil => rfl
  | cons x xs ih =>
    rw [listUnion_cons, if_pos (h x (List.mem_cons_self x xs))]
    exact ih fun y hy => h y (List.mem_cons_of_mem x hy)

theorem listUnion_self (l : List String) : listUnion l l = l :=
  listUnion_eq_self_of_subset l l fun _ h => h

/-- The tail appended by `listUnion` after the old items: the updated items not
already present, in order of first appearance, duplicates removed. -/
def unionTail (seen : List String) : List String → List String
  | [] => []
  | x :: xs => if x ∈ seen then unionTail seen xs else x :: unionTail (seen ++ [x]) xs

theorem listUnion_eq_append (old updated : List String) :
    listUnion old updated = old ++ unionTail old updated := by
  induction updated generalizing old with
  | nil => simp [listUnion, unionTail]
  | cons x xs ih =>
    rw [listUnion_cons, unionTail]
    by_cases hx : x ∈ old
    · simp only [hx, if_true]
      exact ih old
    · simp only [hx, if_false]
      rw [ih (old ++ [x]), List.append_assoc]
      rfl

theorem mem_listUnion (old updated : List String) (x : String) :
    x ∈ listUnion old updated ↔ x ∈ old ∨ x ∈ updated := by
  induction updated generalizing old with
  | nil => simp [listUnion]
  | cons y ys ih =>
    rw [listUnion_cons, ih]
    by_cases hy : y ∈ old
    · simp only [hy, if_true, List.mem_cons]
      constructor
      · rintro (h | h)
        · exact Or.inl h
        · exact Or.inr (Or.inr h)
      · rintro (h | h | h)
        · exact Or.inl h
        · exact Or.inl (h ▸ hy)
        · exact Or.inr h
    · simp only [hy, if_false, List.mem_append, List.mem_singleton, List.mem_cons]
      tauto

/-! ## Pointwise monotonicity order on records

One component per field of the schema: a non-null scalar on the left must be
non-null on the right, and every member of a list field on the left must be a
member of the corresponding list on the right. -/

structure PatientLe (a b : NEMSISPatientInfo) : Prop where
  name_last : optLe a.patient_name_last b.patient_name_last
  name_first : optLe a.patient_name_first b.patient_name_first
  address : optLe a.patient_address b.patient_address
  city : optLe a.patient_city b.patient_city
  state : optLe a.patient_state b.patient_state
  zip : optLe a.patient_zip b.patient_zip
  age : optLe a.patient_age b.patient_age
  gender : optLe a.patient_gender b.patient_gender
  race : optLe a.patient_race b.patient_race
  phone : optLe a.patient_phone b.patient_phone
  dob : optLe a.patient_date_of_birth b.patient_date_of_birth
  gp_name : optLe a.gp_name b.gp_name
  gp_phone : optLe a.gp_phone b.gp_phone
  gp_practice : optLe a.gp_practice_name b.gp_practice_name

structure VitalsLe (a b : NEMSISVitals) : Prop where
  systolic : optLe a.systolic_bp b.systolic_bp
  diastolic : optLe a.diastolic_bp b.diastolic_bp
  heart_rate : optLe a.heart_rate b.heart_rate
  resp_rate : optLe a.respiratory_rate b.respiratory_rate
  spo2 : optLe a.spo2 b.spo2
  glucose : optLe a.blood_glucose b.blood_glucose
  gcs_total : optLe a.gcs_total b.gcs_total
  gcs_eye : optLe a.gcs_eye b.gcs_eye
  gcs_verbal : optLe a.gcs_verbal b.gcs_verbal
  gcs_motor : optLe a.gcs_motor b.gcs_motor
  temperature : optLe a.temperature b.temperature
  pain : optLe a.pain_scale b.pain_scale
  loc : optLe a.level_of_consciousness b.level_of_consciousness
  stroke_score : optLe a.stroke_scale_score b.stroke_scale_score
  stroke_type : optLe a.stroke_scale_type b.stroke_scale_type

structure SituationLe (a b : NEMSISSituation) : Prop where
  chief : optLe a.chief_complaint b.chief_complaint
  primary : optLe a.primary_impression b.primary_impression
  secondary : optLe a.secondary_impression b.secondary_impression
  injury : optLe a.injury_cause b.injury_cause
  onset : optLe a.onset_date_time b.onset_date_time
  possible : optLe a.possible_injury b.possible_injury
  duration : optLe a.complaint_duration b.complaint_duration
  acuity : optLe a.initial_acuity b.initial_acuity

structure ProceduresLe (a b : NEMSISProcedures) : Prop where
  procedures : a.procedures ⊆ b.procedures

structure MedicationsLe (a b : NEMSISMedications) : Prop where
  medications : a.medications ⊆ b.medications

structure TimesLe (a b : NEMSISTimes) : Prop where
  notified : optLe a.unit_notified b.unit_notified
  en_route : optLe a.unit_en_route b.unit_en_route
  arrived_scene : optLe a.unit_arrived_scene b.unit_arrived_scene
  at_patient : optLe a.arrived_at_patient b.arrived_at_patient
  transfer : optLe a.transfer_of_care b.transfer_of_care
  left_scene : optLe a.unit_left_scene b.unit_left_scene
  arrived_dest : optLe a.arrived_destination b.arrived_destination
  in_service : optLe a.unit_back_in_service b.unit_back_in_service

structure DispositionLe (a b : NEMSISDisposition) : Prop where
  facility : optLe a.destination_facility b.destination_facility
  dest_type : optLe a.destination_type b.destination_type
  mode : optLe a.transport_mode b.transport_mode
  disposition : optLe a.transport_disposition b.transport_disposition
  acuity : optLe a.patient_acuity b.patient_acuity
  activation : a.hospital_team_activation ⊆ b.hospital_team_activation

structure HistoryLe (a b : NEMSISHistory) : Prop where
  medical : a.medical_history ⊆ b.medical_history
  meds : a.current_medications ⊆ b.current_medications
  allergies : a.allergies ⊆ b.allergies
  oral : optLe a.last_oral_intake b.last_oral_intake
  alcohol : optLe a.alcohol_drug_use b.alcohol_drug_use

structure RecordLe (a b : NEMSISRecord) : Prop where
  patient : PatientLe a.patient b.patient
  vitals : VitalsLe a.vitals b.vitals
  situation : SituationLe a.situation b.situation
  procedures : ProceduresLe a.procedures b.procedures
  medications : MedicationsLe a.medications b.medications
  times : TimesLe a.times b.times
  disposition : DispositionLe a.disposition b.disposition
  history : HistoryLe a.history b.history

theorem RecordLe_refl (a : NEMSISRecord) : RecordLe a a :=
  ⟨⟨id, id, id, id, id, id, id, id, id, id, id, id, id, id⟩,
   ⟨id, id, id, id, id, id, id, id, id, id, id, id, id, id, id⟩,
   ⟨id, id, id, id, id, id, id, id⟩,
   ⟨List.Subset.refl _⟩,
   ⟨List.Subset.refl _⟩,
   ⟨id, id, id, id, id, id, id, id⟩,
   ⟨id, id, id, id, id, List.Subset.refl _⟩,
   ⟨List.Subset.refl _, List.Subset.refl _, List.Subset.refl _, id, id⟩⟩

theorem RecordLe_trans {a b c : NEMSISRecord} (h1 : RecordLe a b) (h2 : RecordLe b c) :
    RecordLe a c :=
  ⟨⟨optLe_trans h1.patient.name_last h2.patient.name_last,
    optLe_trans h1.patient.name_first h2.patient.name_first,
    optLe_trans h1.patient.address h2.patient.address,
    optLe_trans h1.patient.city h2.patient.city,
    optLe_trans h1.patient.state h2.patient.state,
    optLe_trans h1.patient.zip h2.patient.zip,
    optLe_trans h1.patient.age h2.patient.age,
    optLe_trans h1.patient.gender h2.patient.gender,
    optLe_trans h1.patient.race h2.patient.race,
    optLe_trans h1.patient.phone h2.patient.phone,
    optLe_trans h1.patient.dob h2.patient.dob,
    optLe_trans h1.patient.gp_name h2.patient.gp_name,
    optLe_trans h1.patient.gp_phone h2.patient.gp_phone,
    optLe_trans h1.patient.gp_practice h2.patient.gp_practice⟩,
   ⟨optLe_trans h1.vitals.systolic h2.vitals.systolic,
    optLe_trans h1.vitals.diastolic h2.vitals.diastolic,
    optLe_trans h1.vitals.heart_rate h2.vitals.heart_rate,
    optLe_trans h1.vitals.resp_rate h2.vitals.resp_rate,
    optLe_trans h1.vitals.spo2 h2.vitals.spo2,
    optLe_trans h1.vitals.glucose h2.vitals.glucose,
    optLe_trans h1.vitals.gcs_total h2.vitals.gcs_total,
    optLe_trans h1.vitals.gcs_eye h2.vitals.gcs_eye,
    optLe_trans h1.vitals.gcs_verbal h2.vitals.gcs_verbal,
    optLe_trans h1.vitals.gcs_motor h2.vitals.gcs_motor,
    optLe_trans h1.vitals.temperature h2.vitals.temperature,
    optLe_trans h1.vitals.pain h2.vitals.pain,
    optLe_trans h1.vitals.loc h2.vitals.loc,
    optLe_trans h1.vitals.stroke_score h2.vitals.stroke_score,
    optLe_trans h1.vitals.stroke_type h2.vitals.stroke_type⟩,
   ⟨optLe_trans h1.situation.chief h2.situation.chief,
    optLe_trans h1.situation.primary h2.situation.primary,
    optLe_trans h1.situation.secondary h2.situation.secondary,
    optLe_trans h1.situation.injury h2.situation.injury,
    optLe_trans h1.situation.onset h2.situation.onset,
    optLe_trans h1.situation.possible h2.situation.possible,
    optLe_trans h1.situation.duration h2.situation.duration,
    optLe_trans h1.situation.acuity h2.situation.acuity⟩,
   ⟨List.Subset.trans h1.procedures.procedures h2.procedures.procedures⟩,
   ⟨List.Subset.trans h1.medications.medications h2.medications.medications⟩,
   ⟨optLe_trans h1.times.notified h2.times.notified,
    optLe_trans h1.times.en_route h2.times.en_route,
    optLe_trans h1.times.arrived_scene h2.times.arrived_scene,
    optLe_trans h1.times.at_patient h2.times.at_patient,
    optLe_trans h1.times.transfer h2.times.transfer,
    optLe_trans h1.times.left_scene h2.times.left_scene,
    optLe_trans h1.times.arrived_dest h2.times.arrived_dest,
    optLe_trans h1.times.in_service h2.times.in_service⟩,
   ⟨optLe_trans h1.disposition.facility h2.disposition.facility,
    optLe_trans h1.disposition.dest_type h2.disposition.dest_type,
    optLe_trans h1.disposition.mode h2.disposition.mode,
    optLe_trans h1.disposition.disposition h2.disposition.disposition,
    optLe_trans h1.disposition.acuity h2.disposition.acuity,
    List.Subset.trans h1.disposition.activation h2.disposition.activation⟩,
   ⟨List.Subset.trans h1.history.medical h2.history.medical,
    List.Subset.trans h1.history.meds h2.history.meds,
    List.Subset.trans h1.history.allergies h2.history.allergies,
    optLe_trans h1.history.oral h2.history.oral,
    optLe_trans h1.history.alcohol h2.history.alcohol⟩⟩

theorem mergeRecords_le (old new : NEMSISRecord) : RecordLe old (mergeRecords old new) :=
  ⟨⟨mergeScalar_le _ _, mergeScalar_le _ _, mergeScalar_le _ _, mergeScalar_le _ _,
    mergeScalar_le _ _, mergeScalar_le _ _, mergeScalar_le _ _, mergeScalar_le _ _,
    mergeScalar_le _ _, mergeScalar_le _ _, mergeScalar_le _ _, mergeScalar_le _ _,
    mergeScalar_le _ _, mergeScalar_le _ _⟩,
   ⟨mergeScalar_le _ _, mergeScalar_le _ _, mergeScalar_le _ _, mergeScalar_le _ _,
    mergeScalar_le _ _, mergeScalar_le _ _, mergeScalar_le _ _, mergeScalar_le _ _,
    mergeScalar_le _ _, mergeScalar_le _ _, mergeScalar_le _ _, mergeScalar_le _ _,
    mergeScalar_le _ _, mergeScalar_le _ _, mergeScalar_le _ _⟩,
   ⟨mergeScalar_le _ _, mergeScalar_le _ _, mergeScalar_le _ _, mergeScalar_le _ _,
    mergeScalar_le _ _, mergeScalar_le _ _, mergeScalar_le _ _, mergeScalar_le _ _⟩,
   ⟨listUnion_subset_left _ _⟩,
   ⟨listUnion_subset_left _ _⟩,
   ⟨mergeScalar_le _ _, mergeScalar_le _ _, mergeScalar_le _ _, mergeScalar_le _ _,
    mergeScalar_le _ _, mergeScalar_le _ _, mergeScalar_le _ _, mergeScalar_le _ _⟩,
   ⟨mergeScalar_le _ _, mergeScalar_le _ _, mergeScalar_le _ _, mergeScalar_le _ _,
    mergeScalar_le _ _, listUnion_subset_left _ _⟩,
   ⟨listUnion_subset_left _ _, listUnion_subset_left _ _, listUnion_subset_left _ _,
    mergeScalar_le _ _, mergeScalar_le _ _⟩⟩

/-- C2: for every pair of records, every non-null scalar of `old` is non-null
in `mergeRecords old new` and every member of a list field of `old` is a member
of the corresponding merged list; consequently, along any sequence of merges
called as `merge(existing, newlyExtracted)`, scalars never regress to null and
list membership never decreases. -/
theorem merge_monotone :
    (∀ old new : NEMSISRecord, RecordLe old (mergeRecords old new)) ∧
    (∀ (existing : NEMSISRecord) (extracted : List NEMSISRecord),
      RecordLe existing (extracted.foldl mergeRecords existing)) := by
  refine ⟨mergeRecords_le, ?_⟩
  intro existing extracted
  induction extracted generalizing existing with
  | nil => exact RecordLe_refl existing
  | cons n ns ih =>
    exact RecordLe_trans (mergeRecords_le existing n) (ih (mergeRecords existing n))

/-- C6: merging any record with itself returns it unchanged. -/
theorem merge_idempotent (R : NEMSISRecord) : mergeRecords R R = R := by
  obtain ⟨p, v, s, pr, m, t, d, h⟩ := R
  obtain ⟨p1, p2, p3, p4, p5, p6, p7, p8, p9, p10, p11, p12, p13, p14⟩ := p
  obtain ⟨v1, v2, v3, v4, v5, v6, v7, v8, v9, v10, v11, v12, v13, v14, v15⟩ := v
  obtain ⟨s1, s2, s3, s4, s5, s6, s7, s8⟩ := s
  obtain ⟨pr1⟩ := pr
  obtain ⟨m1⟩ := m
  obtain ⟨t1, t2, t3, t4, t5, t6, t7, t8⟩ := t
  obtain ⟨d1, d2, d3, d4, d5, d6⟩ := d
  obtain ⟨h1, h2, h3, h4, h5⟩ := h
  simp only [mergeRecords, mergePatient, mergeVitals, mergeSituation, mergeProcedures,
    mergeMedications, mergeTimes, mergeDisposition, mergeHistory, mergeScalar_self,
    listUnion_self]

/-- C7: list fields merge as a union ordered by first appearance — the old
items come first, followed by the new items not already present, in the new
side's order with duplicates removed; in particular merging procedures `["A"]`
with `["B", "A"]` yields `["A", "B"]`. -/
theorem merge_list_union_ordering :
    (mergeRecords { procedures := { procedures := ["A"] } }
        { procedures := { procedures := ["B", "A"] } }).procedures.procedures = ["A", "B"]
    ∧ (∀ old updated : List String, listUnion old updated = old ++ unionTail old updated)
    ∧ (∀ (old updated : List String) (x : String),
        x ∈ listUnion old updated ↔ x ∈ old ∨ x ∈ updated) :=
  ⟨by decide, listUnion_eq_append, mem_listUnion⟩

/-! ## The generic recursive dict walk (`_merge` on arbitrary dicts)

For the claim about `_merge` on arbitrary nested dicts we embed Python values
directly.  Dicts are association lists in insertion order.  `list(x or [])`
on a non-list, truthy, non-iterable value (a nonzero int or `True`) raises
`TypeError`; that branch is modelled with `Except`.  Equality used by `in`
is structural on these constructors (Python's cross-type numeric equalities
such as `True == 1` are not modelled; they cannot arise from `model_dump`
output, where every list holds strings). -/

inductive PyVal where
  | none
  | bool (b : Bool)
  | int (n : Int)
  | str (s : String)
  | list (xs : List PyVal)
  | dict (fields : List (String × PyVal))

mutual

/-- Python `==` on the embedded values (structural). -/
def pyBeq : PyVal → PyVal → Bool
  | .none, .none => true
  | .bool a, .bool b => a == b
  | .int a, .int b => a == b
  | .str a, .str b => a == b
  | .list xs, .list ys => pyBeqList xs ys
  | .dict xs, .dict ys => pyBeqFields xs ys
  | _, _ => false

/-- Elementwise `pyBeq` on lists. -/
def pyBeqList : List PyVal → List PyVal → Bool
  | [], [] => true
  | x :: xs, y :: ys => pyBeq x y && pyBeqList xs ys
  | _, _ => false

/-- Keywise `pyBeq` on dict entries. -/
def pyBeqFields : List (String × PyVal) → List (String × PyVal) → Bool
  | [], [] => true
  | (k1, v1) :: xs, (k2, v2) :: ys => k1 == k2 && pyBeq v1 v2 && pyBeqFields xs ys
  | _, _ => false

end

/-- Python `key in dict` / `dict[key]` on an insertion-ordered dict. -/
def lookup? : List (String × PyVal) → String → Option PyVal
  | [], _ => Option.none
  | (k, v) :: rest, key => if k = key then Option.some v else lookup? rest key

/-- The list branch of `_merge`: `combined = list(old_side); for item in
updated: if item not in combined: combined.append(item)`. -/
def pyUnion (combined updated : List PyVal) : List PyVal :=
  updated.foldl (fun acc item => if acc.any (pyBeq item) then acc else acc ++ [item]) combined

/-- Python `list(old[key] or [])`: falsy values give `[]`, a list is copied,
a string iterates its characters, a dict iterates its keys, and a truthy
non-iterable (`True`, a nonzero int) raises `TypeError`. -/
def startList : PyVal → Except Unit (List PyVal)
  | .none => .ok []
  | .bool b => if b then .error () else .ok []
  | .int n => if n = 0 then .ok [] else .error ()
  | .str s => .ok (s.data.map fun c => .str (String.mk [c]))
  | .list xs => .ok xs
  | .dict fs => .ok (fs.map fun p => .str p.1)

mutual

/-- Value-level branch order of `_merge`, exactly as in the source: both dicts
recurse; an updated list unions; an updated non-`None` value wins; otherwise
the old value is kept. -/
def mergeVal : PyVal → PyVal → Except Unit PyVal
  | .dict ov, .dict uv => Except.map PyVal.dict (mergeDict ov uv)
  | v, .list us => Except.map (fun s => PyVal.list (pyUnion s us)) (startList v)
  | v, u =>
    match u with
    | .none => .ok v
    | _ => .ok u

/-- The dict walk of `_merge`: iterate the keys of `old` in order; keys absent
from `updated` keep the old value; keys present in `updated` merge
value-by-value.  Keys present only in `updated` are never visited. -/
def mergeDict : List (String × PyVal) → List (String × PyVal) → Except Unit (List (String × PyVal))
  | [], _ => .ok []
  | (k, v) :: rest, upd =>
    match lookup? upd k with
    | Option.none => Except.map (fun r => (k, v) :: r) (mergeDict rest upd)
    | Option.some u =>
      match mergeVal v u, mergeDict rest upd with
      | .ok mv, .ok r => .ok ((k, mv) :: r)
      | .error e, _ => .error e
      | .ok _, .error e => .error e

end

/-- C10: whenever the recursive dict merge returns a dict, that dict has
exactly `old`'s keys in `old`'s order — a key present only in `new` is
silently dropped — and a key of `old` absent from `new` keeps `old`'s value
unchanged. -/
theorem mergeDict_keys (old upd res : List (String × PyVal))
    (h : mergeDict old upd = .ok res) :
    res.map Prod.fst = old.map Prod.fst
    ∧ (∀ k, k ∉ old.map Prod.fst → k ∉ res.map Prod.fst)
    ∧ (∀ k v, (k, v) ∈ old → lookup? upd k = Option.none → (k, v) ∈ res) := by
  induction old generalizing res with
  | nil =>
    simp only [mergeDict] at h
    obtain rfl : ([] : List (String × PyVal)) = res := by exact Except.ok.inj h
    refine ⟨rfl, fun k hk => hk, ?_⟩
    intro k v hkv
    simp at hkv
  | cons kv rest ih =>
    obtain ⟨k, v⟩ := kv
    simp only [mergeDict] at h
    cases hl : lookup? upd k with
    | none =>
      rw [hl] at h
      cases hrest : mergeDict rest upd with
      | error e => rw [hrest] at h; simp [Except.map] at h
      | ok r =>
        rw [hrest] at h
        simp only [Except.map] at h
        obtain rfl : (k, v) :: r = res := Except.ok.inj h
        obtain ⟨ihkeys, _, ihmem⟩ := ih r hrest
        refine ⟨by simp [ihkeys], ?_, ?_⟩
        · intro k1 hk1
          simp only [List.map_cons, List.mem_cons] at *
          rw [ihkeys]
          exact hk1
        · intro k1 v1 hkv1 hlk1
          rcases List.mem_cons.mp hkv1 with heq | hmem
          · exact heq ▸ List.mem_cons_self _ _
          · exact List.mem_cons_of_mem _ (ihmem k1 v1 hmem hlk1)
    | some u =>
      simp only [hl] at h
      cases hv : mergeVal v u with
      | error e => simp only [hv] at h; exact Except.noConfusion h
      | ok mv =>
        simp only [hv] at h
        cases hrest : mergeDict rest upd with
        | error e => simp only [hrest] at h; exact Except.noConfusion h
        | ok r =>
          simp only [hrest] at h
          obtain rfl : (k, mv) :: r = res := Except.ok.inj h
          obtain ⟨ihkeys, _, ihmem⟩ := ih r hrest
          refine ⟨by simp [ihkeys], ?_, ?_⟩
          · intro k1 hk1
            simp only [List.map_cons, List.mem_cons] at *
            rw [ihkeys]
            exact hk1
          · intro k1 v1 hkv1 hlk1
            rcases List.mem_cons.mp hkv1 with heq | hmem
            · exfalso
              have : k1 = k := congrArg Prod.fst heq
              rw [this, hl] at hlk1
              exact Option.noConfusion hlk1
            · exact List.mem_cons_of_mem _ (ihmem k1 v1 hmem hlk1)

/-- Witness: a concrete merge exercising every clause — key `"a"` has a null
update and keeps its old value, key `"b"` is absent from the update, and key
`"c"` exists only in the update and is dropped. -/
theorem mergeDict_keys_witness :
    mergeDict [("a", PyVal.int 1), ("b", PyVal.str "x")] [("a", PyVal.none), ("c", PyVal.int 3)]
      = .ok [("a", PyVal.int 1), ("b", PyVal.str "x")]
    ∧ ([("a", PyVal.int 1), ("b", PyVal.str "x")].map Prod.fst
        = [("a", PyVal.int 1), ("b", PyVal.str "x")].map Prod.fst
      ∧ (∀ k, k ∉ [("a", PyVal.int 1), ("b", PyVal.str "x")].map Prod.fst →
          k ∉ [("a", PyVal.int 1), ("b", PyVal.str "x")].map Prod.fst)
      ∧ (∀ k v, (k, v) ∈ [("a", PyVal.int 1), ("b", PyVal.str "x")] →
          lookup? [("a", PyVal.none), ("c", PyVal.int 3)] k = Option.none →
          (k, v) ∈ [("a", PyVal.int 1), ("b", PyVal.str "x")])) := by
  have h : mergeDict [("a", PyVal.int 1), ("b", PyVal.str "x")]
      [("a", PyVal.none), ("c", PyVal.int 3)]
      = .ok [("a", PyVal.int 1), ("b", PyVal.str "x")] := by
    simp [mergeDict, mergeVal, lookup?, Except.map]
  exact ⟨h, mergeDict_keys _ _ _ h⟩

/-! ## Trigger-gate predicates (app/services/core_info_checker.py)

Python truthiness on nullable strings: `None` and `""` are falsy. -/

def pyTruthy (s : Option String) : Bool :=
  match s with
  | some v => v != ""
  | Option.none => false

/-- `is_core_info_complete`: a name (first or last), an address, an age and a
gender must all be present. -/
def is_core_info_complete (r : NEMSISRecord) : Bool :=
  (pyTruthy r.patient.patient_name_first || pyTruthy r.patient.patient_name_last)
    && pyTruthy r.patient.patient_address
    && pyTruthy r.patient.patient_age
    && pyTruthy r.patient.patient_gender

/-- `is_gp_contact_available`: a GP name or a GP phone is present. -/
def is_gp_contact_available (r : NEMSISRecord) : Bool :=
  pyTruthy r.patient.gp_name || pyTruthy r.patient.gp_phone

/-- Number of decimal digit characters in a string. -/
def countDigits (s : String) : Nat := (s.data.filter Char.isDigit).length

/-- Modelled from the spec: `is_gp_call_ready` is imported by
`app/routers/stream.py` from `core_info_checker` but no definition appears in
the source tree.  Spec §4.4 (`providerContactReady`): if a provider phone
number is present in the record, require it to contain at least 10 digits;
otherwise a provider name alone is sufficient. -/
def is_gp_call_ready (r : NEMSISRecord) : Bool :=
  match r.patient.gp_phone with
  | some phone => decide (10 ≤ countDigits phone)
  | Option.none => pyTruthy r.patient.gp_name

/-- C3: the GP-call readiness predicate holds for a record with a GP name and
no phone at all; it fails while the recorded provider phone has fewer than 10
digits; and it holds once the phone has at least 10 digits. -/
theorem gp_call_phone_gating (r : NEMSISRecord) :
    (pyTruthy r.patient.gp_name = true → r.patient.gp_phone = Option.none →
      is_gp_call_ready r = true)
    ∧ (∀ p, r.patient.gp_phone = some p → countDigits p < 10 →
      is_gp_call_ready r = false)
    ∧ (∀ p, r.patient.gp_phone = some p → 10 ≤ countDigits p →
      is_gp_call_ready r = true) := by
  refine ⟨?_, ?_, ?_⟩
  · intro hname hphone
    simp [is_gp_call_ready, hphone, hname]
  · intro p hp hlt
    simp [is_gp_call_ready, hp]
    omega
  · intro p hp hge
    simp [is_gp_call_ready, hp]
    omega

/-- Witness: `"555-012"` (6 digit characters) does not trigger, `"555-0123456"`
(10 digits) does, and a GP name with no phone triggers immediately. -/
theorem gp_call_phone_gating_witness :
    is_gp_call_ready { patient := { gp_name := some "Dr Smith" } } = true
    ∧ is_gp_call_ready
        { patient := { gp_name := some "Dr Smith", gp_phone := some "555-012" } } = false
    ∧ is_gp_call_ready
        { patient := { gp_name := some "Dr Smith", gp_phone := some "555-0123456" } } = true :=
  ⟨(gp_call_phone_gating _).1 (by decide) rfl,
   (gp_call_phone_gating _).2.1 "555-012" rfl (by decide),
   (gp_call_phone_gating _).2.2 "555-0123456" rfl (by decide)⟩

/-! ## A small backtracking regex engine

`app/routers/stream.py` compiles three regexes.  All three are written as raw
strings containing doubled backslashes (`\\s`, `\\.`, `\\b`), so the regex
engine receives a literal `\\` (an escaped backslash, matching one backslash
character) followed by a plain letter — not the character classes `\s` or
`\b`.  The engine below reproduces Python `re.search` semantics on the exact
constructs these three patterns use: leftmost start position, alternation
preference in source order, greedy `*`/`+`/`?`, lazy `*?`, non-capturing and
capturing groups, and `$` (modelled as end-of-input; none of the inputs in
the properties below end in a newline).  Matching is fuelled; the fuel passed
by `reSearch` exceeds the maximal possible recursion depth, and every use in
the theorems below is on concrete inputs. -/

inductive RE where
  | eps
  | cls (p : Char → Bool)
  | seq (a b : RE)
  | alt (a b : RE)
  | star (a : RE)
  | lazyStar (a : RE)
  | group (n : Nat) (a : RE)
  | endAnchor

def reSize : RE → Nat
  | .eps => 1
  | .cls _ => 1
  | .seq a b => reSize a + reSize b + 1
  | .alt a b => reSize a + reSize b + 1
  | .star a => reSize a + 1
  | .lazyStar a => reSize a + 1
  | .group _ a => reSize a + 1
  | .endAnchor => 1

/-- Record a numbered group capture; the latest assignment wins on lookup. -/
def setCap (caps : List (Nat × String)) (n : Nat) (s : String) : List (Nat × String) :=
  (n, s) :: caps

/-- Python `match.group(n) or ""`: an unset group yields the empty string. -/
def capGet (caps : List (Nat × String)) (n : Nat) : String :=
  match caps.find? (fun p => p.1 == n) with
  | some p => p.2
  | Option.none => ""

/-- All ways the pattern can match a prefix of `s`, as (remaining suffix,
captures) pairs, in backtracking preference order. -/
def reRun : Nat → RE → List Char → List (Nat × String) → List (List Char × List (Nat × String))
  | 0, _, _, _ => []
  | fuel + 1, re, s, caps =>
    match re with
    | .eps => [(s, caps)]
    | .cls p =>
      match s with
      | [] => []
      | c :: rest => if p c then [(rest, caps)] else []
    | .seq a b => (reRun fuel a s caps).flatMap fun r => reRun fuel b r.1 r.2
    | .alt a b => reRun fuel a s caps ++ reRun fuel b s caps
    | .star a =>
      ((reRun fuel a s caps).flatMap fun r =>
        if r.1.length < s.length then reRun fuel (.star a) r.1 r.2 else []) ++ [(s, caps)]
    | .lazyStar a =>
      (s, caps) :: (reRun fuel a s caps).flatMap fun r =>
        if r.1.length < s.length then reRun fuel (.lazyStar a) r.1 r.2 else []
    | .group n a =>
      (reRun fuel a s caps).map fun r =>
        (r.1, setCap r.2 n (String.mk (s.take (s.length - r.1.length))))
    | .endAnchor =>
      match s with
      | [] => [(s, caps)]
      | _ :: _ => []

/-- Fuel comfortably above the engine's maximal recursion depth for this
pattern and input. -/
def reFuel (re : RE) (s : List Char) : Nat := (reSize re + 2) * (s.length + 2)

/-- Python `re.search`: try each start position from the left; at the first
position where the pattern matches, return the captures of the preferred
match. -/
def searchPos (re : RE) : List Char → Option (List (Nat × String))
  | [] =>
    match reRun (reFuel re []) re [] [] with
    | r :: _ => some r.2
    | [] => Option.none
  | s@(_ :: rest) =>
    match reRun (reFuel re s) re s [] with
    | r :: _ => some r.2
    | [] => searchPos re rest

def reSearch (re : RE) (s : String) : Option (List (Nat × String)) := searchPos re s.data

/-- Greedy `?`. -/
def reOpt (a : RE) : RE := .alt a .eps

/-- Greedy `+`. -/
def rePlus (a : RE) : RE := .seq a (.star a)

/-- One literal character. -/
def reChr (c : Char) : RE := .cls (fun x => x == c)

/-- One literal character under `re.IGNORECASE`. -/
def reChrCI (c : Char) : RE := .cls (fun x => x.toLower == c.toLower)

/-- A literal string under `re.IGNORECASE`. -/
def reStrCI (s : String) : RE := (s.data.map reChrCI).foldr RE.seq .eps

/-- The backslash character (the doubled `\\` in the source raw strings makes
the regex engine match this literal character). -/
def backslashChar : Char := Char.ofNat 92

/-- Apostrophe. -/
def apostropheChar : Char := Char.ofNat 39

/-- Python `.`: any character but a newline. -/
def reAnyChar : RE := .cls (fun c => c != Char.ofNat 10)

/-- The source text `\\s+` inside a raw string: a literal backslash followed
by one or more letters `s` (case-insensitive under `re.IGNORECASE`). -/
def bsSPlusCI : RE := .seq (reChr backslashChar) (rePlus (reChrCI 's'))

/-- One sentence-terminal punctuation mark, the class `[.!?]`. -/
def isSentMark (c : Char) : Bool := c == '.' || c == '!' || c == '?'

/-- The optional closing-quote class `(\"|'|”)` of the sentence-end regex. -/
def isCloseQuote (c : Char) : Bool :=
  c == Char.ofNat 34 || c == apostropheChar || c == Char.ofNat 8221

/-- `sentence_end_at_end_re = re.compile(r"[.!?](\"|'|”)?\\s*$")`: a mark, an
optional quote, a literal backslash (from the doubled `\\`), any number of
`s`, end of input. -/
def sentenceEndAtEndRE : RE :=
  .seq (.cls isSentMark)
    (.seq (reOpt (.cls isCloseQuote))
      (.seq (reChr backslashChar) (.seq (.star (reChr 's')) .endAnchor)))

/-- ASCII letter: `[A-Z]` / `[a-z]` under `re.IGNORECASE`. -/
def reLetter : RE := .cls Char.isAlpha

/-- A capitalised word `[A-Z][a-z]+` (case-folded by `re.IGNORECASE`). -/
def reWord : RE := .seq reLetter (rePlus reLetter)

/-- The alternation `(?:gp|primary care(?: doctor)?|doctor)` shared by both GP
regexes. -/
def gpIntroRE : RE :=
  .alt (reStrCI "gp")
    (.alt (.seq (reStrCI "primary care") (reOpt (reStrCI " doctor"))) (reStrCI "doctor"))

/-- `gp_name_re`, compiled with `re.IGNORECASE` from
`r"(?:patient'?s\\s+)?(?:gp|primary care(?: doctor)?|doctor)\\s+(?:is\\s+)?(?:(Dr\\.?|Doctor)\\s+)?([A-Z][a-z]+(?:\\s+[A-Z][a-z]+)*)"`.
Each doubled backslash is a literal backslash; `Dr\\.?` is `Dr`, a literal
backslash, then an optional arbitrary character. -/
def gpNameRE : RE :=
  .seq (reOpt (.seq (reStrCI "patient")
      (.seq (reOpt (reChr apostropheChar)) (.seq (reChrCI 's') bsSPlusCI))))
    (.seq gpIntroRE
      (.seq bsSPlusCI
        (.seq (reOpt (.seq (reStrCI "is") bsSPlusCI))
          (.seq (reOpt (.seq (.group 1
                (.alt (.seq (reStrCI "Dr") (.seq (reChr backslashChar) (reOpt reAnyChar)))
                  (reStrCI "Doctor")))
              bsSPlusCI))
            (.group 2 (.seq reWord
              (.star (.seq bsSPlusCI reWord))))))))

/-- `gp_practice_re`, compiled with `re.IGNORECASE` from
`r"(?:gp|primary care(?: doctor)?|doctor).*?\\bat\\s+([^\\.]+)"`.  The source
text `\\b` is a literal backslash followed by the letter `b`, and `[^\\.]` is
the class of characters other than a backslash and a dot. -/
def gpPracticeRE : RE :=
  .seq gpIntroRE
    (.seq (.lazyStar reAnyChar)
      (.seq (reChr backslashChar)
        (.seq (reChrCI 'b')
          (.seq (reStrCI "at")
            (.seq bsSPlusCI
              (.group 1 (rePlus (.cls fun c => !(c == backslashChar || c == '.')))))))))

/-! ## Session text handling (app/routers/stream.py) -/

/-- Python `str.strip()`: remove leading and trailing whitespace. -/
def isPySpace (c : Char) : Bool := c.isWhitespace || c == Char.ofNat 11 || c == Char.ofNat 12

def pyStrip (s : String) : String :=
  String.mk (((s.data.dropWhile isPySpace).reverse.dropWhile isPySpace).reverse)

/-- Accumulator pass over the characters for `str.split()`: whitespace runs
separate words, no empty words are produced. -/
def pyWordsAux : List Char → List Char → List String
  | [], acc => if acc.isEmpty then [] else [String.mk acc.reverse]
  | c :: rest, acc =>
    if isPySpace c then
      if acc.isEmpty then pyWordsAux rest []
      else String.mk acc.reverse :: pyWordsAux rest []
    else pyWordsAux rest (c :: acc)

/-- Python `full_text.split()`: split on whitespace runs, no empty words. -/
def pySplitWs (s : String) : List String := pyWordsAux s.data []

/-- `len(full_text.split())`. -/
def wordCount (s : String) : Nat := (pySplitWs s).length

/-- `_count_sentence_endings`: `len(sentence_end_re.findall(text))` for the
single-character class `[.!?]` is the number of such characters. -/
def count_sentence_endings (text : String) : Nat := (text.data.filter isSentMark).length

/-- `_ends_with_sentence`: `bool(sentence_end_at_end_re.search(text.strip()))`. -/
def ends_with_sentence (text : String) : Bool :=
  (reSearch sentenceEndAtEndRE (pyStrip text)).isSome

/-- The commit-buffer part of the session state mutated by `on_committed`. -/
structure CommitState where
  pending_committed : String
  pending_sentence_count : Nat
  deriving DecidableEq, Repr

/-- `_flush_committed(text)` on the accumulated transcript: an empty text is
a no-op; otherwise the text is appended (space separated), a transcript row
is persisted and `transcript_committed` is emitted (the returned flag). -/
def flush_committed (accumulated text : String) : String × Bool :=
  if text = "" then (accumulated, false)
  else (if accumulated ≠ "" then accumulated ++ " " ++ text else text, true)

/-- `on_committed(text)`: append the fragment to the pending buffer and add
its sentence marks to the counter, then flush exactly when the counter is at
least 2 or the pending buffer ends with a sentence (per
`_ends_with_sentence`).  Returns the new buffer state and the flushed text,
if any (`current_partial = ""` and the `extract_now` signal are session-level
effects handled by the scheduler model below). -/
def on_committed (st : CommitState) (text : String) : CommitState × Option String :=
  let st1 : CommitState :=
    if text ≠ "" then
      { pending_committed :=
          if st.pending_committed ≠ "" then pyStrip (st.pending_committed ++ " " ++ text)
          else text,
        pending_sentence_count :=
          st.pending_sentence_count + count_sentence_endings text }
    else st
  let should_flush : Bool :=
    decide (st1.pending_sentence_count ≥ 2)
      || (st1.pending_committed != "" && ends_with_sentence st1.pending_committed)
  if should_flush then
    ({ pending_committed := "", pending_sentence_count := 0 }, some st1.pending_committed)
  else (st1, Option.none)

/-- C4 (evaluating the code at the failing input): a single committed sentence
`"Hello."` is held in the pending buffer and nothing is persisted, although
the buffer ends in the sentence-terminal mark `'.'` — the end-of-sentence
disjunct of the flush heuristic never fires on ordinary text because the
compiled regex demands a literal backslash before the end of the string; only
the two-marks counter flushes, as the second conjunct shows. -/
theorem on_committed_sentence_end_dead :
    on_committed { pending_committed := "", pending_sentence_count := 0 } "Hello."
      = ({ pending_committed := "Hello.", pending_sentence_count := 1 }, Option.none)
    ∧ "Hello.".data.getLast? = some '.'
    ∧ ends_with_sentence "Hello." = false
    ∧ (on_committed { pending_committed := "", pending_sentence_count := 0 } "One. Two.").2
        = some "One. Two." := by
  refine ⟨?_, ?_, ?_, ?_⟩ <;> decide

/-! ## The extractor and the per-session extraction scheduler -/

/-- Python `" ".join(part for part in parts if part)`. -/
def joinTruthy (parts : List String) : String :=
  String.intercalate " " (parts.filter (fun p => p ≠ ""))

/-- `_infer_gp_details(text)`: when `gp_name` is unset, fill it from the title
and name groups of a `gp_name_re` match; when `gp_practice_name` is unset,
fill it from the first group of a `gp_practice_re` match. -/
def infer_gp_details (r : NEMSISRecord) (text : String) : NEMSISRecord :=
  if text = "" then r
  else
    let r1 :=
      if pyTruthy r.patient.gp_name then r
      else
        match reSearch gpNameRE text with
        | Option.none => r
        | some caps =>
          let title := capGet caps 1
          let name := capGet caps 2
          let combined := pyStrip (joinTruthy [title, name])
          if combined ≠ "" then
            { r with patient := { r.patient with gp_name := some combined } }
          else r
    if pyTruthy r1.patient.gp_practice_name then r1
    else
      match reSearch gpPracticeRE text with
      | Option.none => r1
      | some caps =>
        let practice := pyStrip (capGet caps 1)
        if practice ≠ "" then
          { r1 with patient := { r1.patient with gp_practice_name := some practice } }
        else r1

/-- `extract_nemsis(transcript, existing)` on the live path (a configured
client, `DUMMY_MODE` off): the outcome of the awaited LLM call — parsed
record or raised exception — is the explicit `callResult` argument.  On
success the result is merged over the existing record; on any exception the
function logs and returns `existing or NEMSISRecord()`. -/
def extract_nemsis (callResult : Except Unit NEMSISRecord) (existing : Option NEMSISRecord) :
    NEMSISRecord :=
  match callResult with
  | .ok extracted =>
    match existing with
    | some ex => mergeRecords ex extracted
    | Option.none => extracted
  | .error _ =>
    match existing with
    | some ex => ex
    | Option.none => emptyNEMSIS

/-- The session fields read and written inside the extraction lock. -/
structure SessionState where
  current_nemsis : NEMSISRecord
  last_extracted_word_count : Nat
  core_triggered : Bool
  gp_call_triggered : Bool
  deriving DecidableEq, Repr

/-- One spawned background action, carrying the deep-copied snapshot
(`model_copy(deep=True)`) the background task receives. -/
inductive Dispatch where
  | medicalDb (snapshot : NEMSISRecord)
  | gpCall (snapshot : NEMSISRecord)
  deriving DecidableEq, Repr

/-- The downstream-trigger section shared verbatim (but for task names and the
persisted columns) by the extraction loop and the final-flush path: check the
idempotent flag, set it before anything asynchronous, snapshot the record,
spawn the background task. -/
def runDispatchChecks (st : SessionState) (rec1 : NEMSISRecord) :
    SessionState × List Dispatch :=
  let step1 :=
    if is_core_info_complete rec1 && !st.core_triggered then
      ({ st with core_triggered := true }, [Dispatch.medicalDb rec1])
    else (st, ([] : List Dispatch))
  let step2 :=
    if is_gp_call_ready rec1 && !step1.1.gp_call_triggered then
      ({ step1.1 with gp_call_triggered := true }, [Dispatch.gpCall rec1])
    else (step1.1, ([] : List Dispatch))
  (step2.1, step1.2 ++ step2.2)

/-- One wake of `_extraction_loop` after the signal/timeout race: `full_text`
is the text assembled from accumulated + pending + partial, and `callResult`
the outcome of this pass's external call.  If the word count has not grown the
pass is skipped; otherwise, under `extraction_lock`: extract, infer GP
details, advance `last_extracted_word_count`, persist/emit (I/O), and run the
two dispatch checks. -/
def extractionWake (st : SessionState) (fullText : String)
    (callResult : Except Unit NEMSISRecord) : SessionState × List Dispatch :=
  let wc := wordCount fullText
  if wc ≤ st.last_extracted_word_count then (st, [])
  else
    let rec1 := infer_gp_details (extract_nemsis callResult (some st.current_nemsis)) fullText
    runDispatchChecks
      { st with current_nemsis := rec1, last_extracted_word_count := wc } rec1

/-- The final synchronous extraction pass in the `finally` block of
`stream_endpoint`: the remaining partial and pending text has already been
flushed into `accumulated`; if unextracted words remain, extract under
`extraction_lock`, persist/emit, and run the same two dispatch checks.  This
path neither runs GP inference nor advances `last_extracted_word_count`. -/
def finalFlushStep (st : SessionState) (accumulated : String)
    (callResult : Except Unit NEMSISRecord) : SessionState × List Dispatch :=
  if wordCount accumulated ≤ st.last_extracted_word_count then (st, [])
  else
    let rec1 := extract_nemsis callResult (some st.current_nemsis)
    runDispatchChecks { st with current_nemsis := rec1 } rec1

/-- A caller of the guarded trigger region: a periodic-loop pass or the
final-flush pass, with that pass's text and external-call outcome. -/
inductive StepInput where
  | wake (fullText : String) (callResult : Except Unit NEMSISRecord)
  | finalFlush (accumulated : String) (callResult : Except Unit NEMSISRecord)

def sessionStep (st : SessionState) : StepInput → SessionState × List Dispatch
  | .wake t r => extractionWake st t r
  | .finalFlush t r => finalFlushStep st t r

/-- Any serialisation of guarded passes: `extraction_lock` (asyncio, one lock
per session) makes the lock-held bodies execute one after the other, so every
concurrent schedule of the periodic loop and the final flush corresponds to
some input list here. -/
def sessionRun (st : SessionState) : List StepInput → SessionState × List Dispatch
  | [] => (st, [])
  | i :: is =>
    let s1 := sessionStep st i
    let s2 := sessionRun s1.1 is
    (s2.1, s1.2 ++ s2.2)

def countMedical (ds : List Dispatch) : Nat :=
  (ds.filter fun d => match d with | .medicalDb _ => true | .gpCall _ => false).length

def countGp (ds : List Dispatch) : Nat :=
  (ds.filter fun d => match d with | .medicalDb _ => false | .gpCall _ => true).length

theorem countMedical_append (a b : List Dispatch) :
    countMedical (a ++ b) = countMedical a + countMedical b := by
  simp [countMedical]

theorem countGp_append (a b : List Dispatch) :
    countGp (a ++ b) = countGp a + countGp b := by
  simp [countGp]

theorem dispatchChecks_bound (st : SessionState) (rec1 : NEMSISRecord) :
    countMedical (runDispatchChecks st rec1).2
        + (if (runDispatchChecks st rec1).1.core_triggered then 0 else 1)
      ≤ (if st.core_triggered then 0 else 1)
    ∧ countGp (runDispatchChecks st rec1).2
        + (if (runDispatchChecks st rec1).1.gp_call_triggered then 0 else 1)
      ≤ (if st.gp_call_triggered then 0 else 1) := by
  unfold runDispatchChecks
  cases h1 : (is_core_info_complete rec1 && !st.core_triggered) with
  | true =>
    have h1' := h1
    rw [Bool.and_eq_true] at h1'
    obtain ⟨hcore, hcflag⟩ := h1'
    have hc : st.core_triggered = false := by simpa using hcflag
    cases h2 : (is_gp_call_ready rec1 && !st.gp_call_triggered) with
    | true =>
      have h2' := h2
      rw [Bool.and_eq_true] at h2'
      obtain ⟨hgp, hgflag⟩ := h2'
      have hg : st.gp_call_triggered = false := by simpa using hgflag
      simp [hcore, hgp, hc, hg, countMedical, countGp]
    | false =>
      simp [hcore, hc, h2, countMedical, countGp]
  | false =>
    cases h2 : (is_gp_call_ready rec1 && !st.gp_call_triggered) with
    | true =>
      have h2' := h2
      rw [Bool.and_eq_true] at h2'
      obtain ⟨hgp, hgflag⟩ := h2'
      have hg : st.gp_call_triggered = false := by simpa using hgflag
      simp [h1, hgp, hg, countMedical, countGp]
    | false =>
      simp [h1, h2, countMedical, countGp]

theorem dispatchChecks_state (st : SessionState) (rec1 : NEMSISRecord) :
    (runDispatchChecks st rec1).1.current_nemsis = st.current_nemsis
    ∧ (runDispatchChecks st rec1).1.last_extracted_word_count
        = st.last_extracted_word_count := by
  unfold runDispatchChecks
  by_cases h1 : (is_core_info_complete rec1 && !st.core_triggered) = true <;>
    by_cases h2 : (is_gp_call_ready rec1 && !st.gp_call_triggered) = true <;>
      simp [h1, h2]

theorem sessionStep_bound (st : SessionState) (i : StepInput) :
    countMedical (sessionStep st i).2
        + (if (sessionStep st i).1.core_triggered then 0 else 1)
      ≤ (if st.core_triggered then 0 else 1)
    ∧ countGp (sessionStep st i).2
        + (if (sessionStep st i).1.gp_call_triggered then 0 else 1)
      ≤ (if st.gp_call_triggered then 0 else 1) := by
  cases i with
  | wake t r =>
    by_cases h : wordCount t ≤ st.last_extracted_word_count
    · simp [sessionStep, extractionWake, h, countMedical, countGp]
    · simp only [sessionStep, extractionWake, h, if_false]
      exact dispatchChecks_bound _ _
  | finalFlush t r =>
    by_cases h : wordCount t ≤ st.last_extracted_word_count
    · simp [sessionStep, finalFlushStep, h, countMedical, countGp]
    · simp only [sessionStep, finalFlushStep, h, if_false]
      exact dispatchChecks_bound _ _

theorem sessionRun_bound (inputs : List StepInput) (st : SessionState) :
    countMedical (sessionRun st inputs).2
        + (if (sessionRun st inputs).1.core_triggered then 0 else 1)
      ≤ (if st.core_triggered then 0 else 1)
    ∧ countGp (sessionRun st inputs).2
        + (if (sessionRun st inputs).1.gp_call_triggered then 0 else 1)
      ≤ (if st.gp_call_triggered then 0 else 1) := by
  induction inputs generalizing st with
  | nil => simp [sessionRun, countMedical, countGp]
  | cons i is ih =>
    obtain ⟨hm1, hg1⟩ := sessionStep_bound st i
    obtain ⟨hm2, hg2⟩ := ih (sessionStep st i).1
    constructor
    · calc countMedical (sessionRun st (i :: is)).2
            + (if (sessionRun st (i :: is)).1.core_triggered then 0 else 1)
          = countMedical (sessionStep st i).2
            + (countMedical (sessionRun (sessionStep st i).1 is).2
              + (if (sessionRun (sessionStep st i).1 is).1.core_triggered then 0 else 1)) := by
            simp [sessionRun, countMedical_append]
            omega
        _ ≤ countMedical (sessionStep st i).2
            + (if (sessionStep st i).1.core_triggered then 0 else 1) := by omega
        _ ≤ _ := hm1
    · calc countGp (sessionRun st (i :: is)).2
            + (if (sessionRun st (i :: is)).1.gp_call_triggered then 0 else 1)
          = countGp (sessionStep st i).2
            + (countGp (sessionRun (sessionStep st i).1 is).2
              + (if (sessionRun (sessionStep st i).1 is).1.gp_call_triggered then 0 else 1)) := by
            simp [sessionRun, countGp_append]
            omega
        _ ≤ countGp (sessionStep st i).2
            + (if (sessionStep st i).1.gp_call_triggered then 0 else 1) := by omega
        _ ≤ _ := hg1

/-- C1: across any serialisation of guarded trigger regions (periodic-loop
passes and final-flush passes in any order, with any texts and any
external-call outcomes), each downstream action is dispatched at most once —
and not at all when its idempotent flag is already set, so a caller that finds
the flag set performs no action. -/
theorem dispatch_at_most_once (st : SessionState) (inputs : List StepInput) :
    countMedical (sessionRun st inputs).2 ≤ (if st.core_triggered then 0 else 1)
    ∧ countGp (sessionRun st inputs).2 ≤ (if st.gp_call_triggered then 0 else 1) := by
  obtain ⟨hm, hg⟩ := sessionRun_bound inputs st
  omega

/-- C5 (amended): when the external call raises, `extract_nemsis` returns the
existing record unmodified (or an empty record when none exists); a failing
periodic pass keeps the record unchanged except for the transcript-based GP
inference that runs on every pass, but it does advance
`last_extracted_word_count` to the current count; a failing final-flush pass
leaves the record entirely unchanged; and a pass with no new words changes
nothing at all. -/
theorem extraction_failure_keeps_record (st : SessionState) (t : String) :
    extract_nemsis (.error ()) (some st.current_nemsis) = st.current_nemsis
    ∧ extract_nemsis (.error ()) Option.none = emptyNEMSIS
    ∧ (wordCount t ≤ st.last_extracted_word_count →
        extractionWake st t (.error ()) = (st, []))
    ∧ (st.last_extracted_word_count < wordCount t →
        (extractionWake st t (.error ())).1.current_nemsis
            = infer_gp_details st.current_nemsis t
        ∧ (extractionWake st t (.error ())).1.last_extracted_word_count = wordCount t)
    ∧ (st.last_extracted_word_count < wordCount t →
        (finalFlushStep st t (.error ())).1.current_nemsis = st.current_nemsis) := by
  refine ⟨rfl, rfl, ?_, ?_, ?_⟩
  · intro h
    simp [extractionWake, h]
  · intro h
    have hn : ¬ wordCount t ≤ st.last_extracted_word_count := by omega
    constructor
    · simpa [extractionWake, hn, extract_nemsis] using
        (dispatchChecks_state
          { st with
              current_nemsis := infer_gp_details st.current_nemsis t,
              last_extracted_word_count := wordCount t }
          (infer_gp_details st.current_nemsis t)).1
    · simpa [extractionWake, hn, extract_nemsis] using
        (dispatchChecks_state
          { st with
              current_nemsis := infer_gp_details st.current_nemsis t,
              last_extracted_word_count := wordCount t }
          (infer_gp_details st.current_nemsis t)).2
  · intro h
    have hn : ¬ wordCount t ≤ st.last_extracted_word_count := by omega
    simpa [finalFlushStep, hn, extract_nemsis] using
      (dispatchChecks_state { st with current_nemsis := st.current_nemsis }
        st.current_nemsis).1

/-- Witness: a failing pass over two fresh words keeps the (empty) record but
advances the word count; a pass with no new words is skipped entirely. -/
theorem extraction_failure_keeps_record_witness :
    (extractionWake
        { current_nemsis := emptyNEMSIS, last_extracted_word_count := 0,
          core_triggered := false, gp_call_triggered := false }
        "alpha beta" (.error ())).1.current_nemsis
      = infer_gp_details emptyNEMSIS "alpha beta"
    ∧ extractionWake
        { current_nemsis := emptyNEMSIS, last_extracted_word_count := 5,
          core_triggered := false, gp_call_triggered := false }
        "one" (.error ())
      = ({ current_nemsis := emptyNEMSIS, last_extracted_word_count := 5,
           core_triggered := false, gp_call_triggered := false }, []) :=
  ⟨((extraction_failure_keeps_record _ "alpha beta").2.2.2.1 (by decide)).1,
   (extraction_failure_keeps_record _ "one").2.2.1 (by decide)⟩

/-- C5 (counterexample to the claim as stated): with the external call failing
on a two-word transcript from a fresh session state, the pass leaves the
record alone but sets `last_extracted_word_count` to 2 — it is not left
unchanged at 0 as the claim asserts. -/
theorem extraction_failure_advances_word_count :
    (extractionWake
        { current_nemsis := emptyNEMSIS, last_extracted_word_count := 0,
          core_triggered := false, gp_call_triggered := false }
        "alpha beta" (.error ())).1.last_extracted_word_count ≠ 0 := by
  decide

/-! ## The in-memory event bus (app/services/event_bus.py, `CaseEventBus`)

Events are dicts; we carry string payloads.  Queues are addressed by an
identifier; the store of queues is a function from identifiers, standing for
the heap.  `asyncio.Queue.put_nowait` raises `QueueFull` only on a bounded
queue at capacity (`maxsize <= 0` means unbounded); `publish` catches it,
records a warning and moves on — the publisher never blocks. -/

abbrev Event : Type := List (String × String)

/-- Python `event["case_id"] = case_id`: overwrite in place or append. -/
def setKey (ev : Event) (k v : String) : Event :=
  if ev.any (fun p => p.1 == k) then ev.map (fun p => if p.1 == k then (k, v) else p)
  else ev ++ [(k, v)]

/-- Read a key of an event dict. -/
def getKey (ev : Event) (k : String) : Option String :=
  (ev.find? (fun p => p.1 == k)).map Prod.snd

structure PyQueue where
  maxsize : Nat
  items : List Event
  deriving DecidableEq

/-- `asyncio.Queue.full()`: never full when `maxsize` is 0 (unbounded, the
default used by `subscribe` and `subscribe_all`). -/
def queueFull (q : PyQueue) : Bool := decide (0 < q.maxsize ∧ q.maxsize ≤ q.items.length)

/-- `put_nowait`: enqueue, or raise `QueueFull` (the `false` flag; `publish`
logs a warning and drops the event for that subscriber). -/
def put_nowait (q : PyQueue) (e : Event) : PyQueue × Bool :=
  if queueFull q then (q, false) else ({ q with items := q.items ++ [e] }, true)

structure CaseEventBus where
  subscribers : List (String × List Nat)
  global_subscribers : List Nat

/-- `self._subscribers.get(case_id, set())`. -/
def subsOf (bus : CaseEventBus) (cid : String) : List Nat :=
  match bus.subscribers.find? (fun p => p.1 == cid) with
  | some p => p.2
  | Option.none => []

/-- Delivery to one subscriber queue within the heap of queues. -/
def deliver (ev1 : Event) (qs : Nat → PyQueue) (qid : Nat) : Nat → PyQueue :=
  fun n => if n = qid then (put_nowait (qs qid) ev1).1 else qs n

/-- `publish(case_id, event)`: add `case_id` to the event, then `put_nowait` a
copy to every queue subscribed to the case and every globally subscribed
queue, dropping (with a warning) wherever the queue is full. -/
def publish (bus : CaseEventBus) (queues : Nat → PyQueue) (cid : String) (ev : Event) :
    Nat → PyQueue :=
  (subsOf bus cid ++ bus.global_subscribers).foldl (deliver (setKey ev "case_id" cid)) queues

theorem deliverFold_not_mem (ev1 : Event) (l : List Nat) :
    ∀ (qs : Nat → PyQueue) (q : Nat), q ∉ l → l.foldl (deliver ev1) qs q = qs q := by
  induction l with
  | nil => intro qs q _; rfl
  | cons a rest ih =>
    intro qs q hq
    have hqa : q ≠ a := fun h => hq (h ▸ List.mem_cons_self a rest)
    have hqr : q ∉ rest := fun h => hq (List.mem_cons_of_mem a h)
    calc ((a :: rest).foldl (deliver ev1) qs) q
        = (rest.foldl (deliver ev1) (deliver ev1 qs a)) q := rfl
      _ = deliver ev1 qs a q := ih _ _ hqr
      _ = qs q := by simp [deliver, hqa]

theorem deliverFold_count_one (ev1 : Event) (l : List Nat) :
    ∀ (qs : Nat → PyQueue) (q : Nat), l.count q = 1 →
      l.foldl (deliver ev1) qs q = (put_nowait (qs q) ev1).1 := by
  induction l with
  | nil => intro qs q h; simp at h
  | cons a rest ih =>
    intro qs q hc
    rw [List.count_cons] at hc
    by_cases hqa : q = a
    · subst hqa
      have hz : rest.count q = 0 := by simp at hc; omega
      have hnm : q ∉ rest := List.count_eq_zero.mp hz
      calc ((q :: rest).foldl (deliver ev1) qs) q
          = (rest.foldl (deliver ev1) (deliver ev1 qs q)) q := rfl
        _ = deliver ev1 qs q q := deliverFold_not_mem ev1 rest _ _ hnm
        _ = (put_nowait (qs q) ev1).1 := by simp [deliver]
    · have hc1 : rest.count q = 1 := by
        have hne : (a == q) = false := by simpa using Ne.symm hqa
        rw [hne] at hc
        simpa using hc
      calc ((a :: rest).foldl (deliver ev1) qs) q
          = (rest.foldl (deliver ev1) (deliver ev1 qs a)) q := rfl
        _ = (put_nowait ((deliver ev1 qs a) q) ev1).1 := ih _ _ hc1
        _ = (put_nowait (qs q) ev1).1 := by simp [deliver, hqa]

theorem find_map_overwrite (k v : String) (ev : List (String × String))
    (h : ev.any (fun p => p.1 == k) = true) :
    (ev.map (fun p => if p.1 == k then (k, v) else p)).find? (fun p => p.1 == k)
      = some (k, v) := by
  induction ev with
  | nil => simp at h
  | cons a rest ih =>
    by_cases ha : (a.1 == k) = true
    · simp [List.find?, ha]
    · have hr : rest.any (fun p => p.1 == k) = true := by
        rw [List.any_cons] at h
        simpa [ha] using h
      simp only [List.map_cons, ha, if_false, Bool.false_eq_true]
      rw [List.find?]
      simp only [ha, Bool.false_eq_true, if_false]
      exact ih hr

theorem find_append_new (k v : String) (ev : List (String × String))
    (h : ev.any (fun p => p.1 == k) = false) :
    (ev ++ [(k, v)]).find? (fun p => p.1 == k) = some (k, v) := by
  induction ev with
  | nil => simp [List.find?]
  | cons a rest ih =>
    rw [List.any_cons] at h
    have ha : (a.1 == k) = false := by
      cases hh : (a.1 == k) <;> simp [hh] at h ⊢
    have hr : rest.any (fun p => p.1 == k) = false := by
      cases hh : rest.any (fun p => p.1 == k) <;> simp [hh, ha] at h ⊢
    rw [List.cons_append, List.find?]
    simp only [ha, Bool.false_eq_true, if_false]
    exact ih hr

theorem getKey_setKey (ev : List (String × String)) (k v : String) :
    getKey (setKey ev k v) k = some v := by
  unfold setKey getKey
  by_cases h : ev.any (fun p => p.1 == k) = true
  · rw [if_pos h, find_map_overwrite k v ev h]
    rfl
  · rw [if_neg h]
    rw [find_append_new k v ev (Bool.eq_false_iff.mpr h)]
    rfl

/-- C8: `publish` stamps the case id onto the event; a queue subscribed to the
published case id or subscribed globally (once) receives the stamped event via
`put_nowait` — which appends when there is room and leaves a full queue
unchanged, never blocking the publisher — while a queue subscribed under no
matching entry (e.g. only under a different case id) is untouched. -/
theorem publish_fanout (bus : CaseEventBus) (queues : Nat → PyQueue) (cid : String)
    (ev : Event) (qid : Nat) :
    (qid ∉ subsOf bus cid ++ bus.global_subscribers →
      publish bus queues cid ev qid = queues qid)
    ∧ ((subsOf bus cid ++ bus.global_subscribers).count qid = 1 →
      publish bus queues cid ev qid = (put_nowait (queues qid) (setKey ev "case_id" cid)).1)
    ∧ (∀ q : PyQueue, queueFull q = false →
        put_nowait q (setKey ev "case_id" cid)
          = ({ q with items := q.items ++ [setKey ev "case_id" cid] }, true))
    ∧ (∀ q : PyQueue, queueFull q = true →
        put_nowait q (setKey ev "case_id" cid) = (q, false))
    ∧ getKey (setKey ev "case_id" cid) "case_id" = some cid := by
  refine ⟨fun h => deliverFold_not_mem _ _ _ _ h,
    fun h => deliverFold_count_one _ _ _ _ h, ?_, ?_, getKey_setKey ev "case_id" cid⟩
  · intro q hq
    simp [put_nowait, hq]
  · intro q hq
    simp [put_nowait, hq]

/-- Witness: case `"case-A"` has subscriber queue 1, case `"case-B"` has
subscriber queue 2, queue 3 subscribes globally and queue 4 is bounded at
capacity and already full.  Publishing on `"case-A"` stamps the case id,
appends to queues 1 and 3, drops at 4, and leaves 2 untouched. -/
theorem publish_fanout_witness :
    publish
      { subscribers := [("case-A", [1, 4]), ("case-B", [2])], global_subscribers := [3] }
      (fun n => if n = 4 then { maxsize := 1, items := [[("type", "old")]] }
                else { maxsize := 0, items := [] })
      "case-A" [("type", "record_updated")] 1
      = { maxsize := 0, items := [[("type", "record_updated"), ("case_id", "case-A")]] }
    ∧ publish
      { subscribers := [("case-A", [1, 4]), ("case-B", [2])], global_subscribers := [3] }
      (fun n => if n = 4 then { maxsize := 1, items := [[("type", "old")]] }
                else { maxsize := 0, items := [] })
      "case-A" [("type", "record_updated")] 3
      = { maxsize := 0, items := [[("type", "record_updated"), ("case_id", "case-A")]] }
    ∧ publish
      { subscribers := [("case-A", [1, 4]), ("case-B", [2])], global_subscribers := [3] }
      (fun n => if n = 4 then { maxsize := 1, items := [[("type", "old")]] }
                else { maxsize := 0, items := [] })
      "case-A" [("type", "record_updated")] 2
      = { maxsize := 0, items := [] }
    ∧ publish
      { subscribers := [("case-A", [1, 4]), ("case-B", [2])], global_subscribers := [3] }
      (fun n => if n = 4 then { maxsize := 1, items := [[("type", "old")]] }
                else { maxsize := 0, items := [] })
      "case-A" [("type", "record_updated")] 4
      = { maxsize := 1, items := [[("type", "old")]] } := by
  have h1 := (publish_fanout
    { subscribers := [("case-A", [1, 4]), ("case-B", [2])], global_subscribers := [3] }
    (fun n => if n = 4 then { maxsize := 1, items := [[("type", "old")]] }
              else { maxsize := 0, items := [] })
    "case-A" [("type", "record_updated")] 1).2.1 (by decide)
  have h3 := (publish_fanout
    { subscribers := [("case-A", [1, 4]), ("case-B", [2])], global_subscribers := [3] }
    (fun n => if n = 4 then { maxsize := 1, items := [[("type", "old")]] }
              else { maxsize := 0, items := [] })
    "case-A" [("type", "record_updated")] 3).2.1 (by decide)
  have h2 := (publish_fanout
    { subscribers := [("case-A", [1, 4]), ("case-B", [2])], global_subscribers := [3] }
    (fun n => if n = 4 then { maxsize := 1, items := [[("type", "old")]] }
              else { maxsize := 0, items := [] })
    "case-A" [("type", "record_updated")] 2).1 (by decide)
  have h4 := (publish_fanout
    { subscribers := [("case-A", [1, 4]), ("case-B", [2])], global_subscribers := [3] }
    (fun n => if n = 4 then { maxsize := 1, items := [[("type", "old")]] }
              else { maxsize := 0, items := [] })
    "case-A" [("type", "record_updated")] 4).2.1 (by decide)
  refine ⟨?_, ?_, ?_, ?_⟩
  · rw [h1]; decide
  · rw [h3]; decide
  · rw [h2]; decide
  · rw [h4]; decide

/-! ## Session teardown (app/routers/stream.py, the closing UPDATE)

The `finally` block ends with `UPDATE cases SET status = 'completed',
updated_at = ? WHERE id = ? AND status = 'active'`: standard SQL UPDATE
semantics over the `cases` table, restricted to the columns involved. -/

structure CaseRow where
  id : String
  status : String
  updated_at : String
  deriving DecidableEq, Repr

/-- Effect of the teardown UPDATE on one row. -/
def updateCaseRow (cid now : String) (r : CaseRow) : CaseRow :=
  if r.id = cid ∧ r.status = "active" then { r with status := "completed", updated_at := now }
  else r

/-- Effect of the teardown UPDATE on the whole `cases` table. -/
def markCompletedIfActive (rows : List CaseRow) (cid now : String) : List CaseRow :=
  rows.map (updateCaseRow cid now)

/-- C9: teardown marks the case completed only if it is still active — a row
whose status a concurrent writer has already moved away from `'active'` is
left unchanged, rows of other cases are left unchanged, and the matching
active row becomes `'completed'`. -/
theorem teardown_compare_and_set (cid now : String) :
    (∀ r : CaseRow, r.status ≠ "active" → updateCaseRow cid now r = r)
    ∧ (∀ r : CaseRow, r.id ≠ cid → updateCaseRow cid now r = r)
    ∧ (∀ r : CaseRow, r.id = cid → r.status = "active" →
        updateCaseRow cid now r = { id := r.id, status := "completed", updated_at := now })
    ∧ (∀ rows : List CaseRow,
        markCompletedIfActive rows cid now = rows.map (updateCaseRow cid now)) := by
  refine ⟨?_, ?_, ?_, fun rows => rfl⟩
  · intro r h
    simp [updateCaseRow, h]
  · intro r h
    simp [updateCaseRow, h]
  · intro r h1 h2
    simp [updateCaseRow, h1, h2]

/-- Witness: a row a concurrent writer already moved to `'handed_over'` stays
untouched, a different case's active row stays untouched, and the still-active
matching row is completed with the new timestamp. -/
theorem teardown_compare_and_set_witness :
    updateCaseRow "c1" "t1" { id := "c1", status := "handed_over", updated_at := "t0" }
      = { id := "c1", status := "handed_over", updated_at := "t0" }
    ∧ updateCaseRow "c1" "t1" { id := "c2", status := "active", updated_at := "t0" }
      = { id := "c2", status := "active", updated_at := "t0" }
    ∧ updateCaseRow "c1" "t1" { id := "c1", status := "active", updated_at := "t0" }
      = { id := "c1", status := "completed", updated_at := "t1" } :=
  ⟨(teardown_compare_and_set "c1" "t1").1 _ (by decide),
   (teardown_compare_and_set "c1" "t1").2.1 _ (by decide),
   (teardown_compare_and_set "c1" "t1").2.2.1 _ rfl rfl⟩

end Relay
